import Mathlib

/-! Verification of the SOCKS5 request engine in request.go of the
ferama/go-socks repository.  Go byte streams are modelled as lists of
natural numbers, Go byte slices as lists, the Go nil pointer and the
nil slice as Option.none, and the Go int as Int.  Fallible reads
return Except, and the outcome of a handler records the bytes written
to the client together with the returned error; a runtime panic is a
distinguished outcome. -/

set_option maxRecDepth 8192

namespace GoSocks

/-- Modelled from the spec: the constant socks5Version is declared in a
repository file outside src (request.go only references it); the SOCKS5
wire format of the spec fixes the version byte to 5. -/
def socks5Version : Nat := 5

/-- Command constant from the first const block of request.go. -/
def connectCommand : Nat := 1

/-- Command constant from the first const block of request.go. -/
def bindCommand : Nat := 2

/-- Command constant from the first const block of request.go. -/
def associateCommand : Nat := 3

/-- Address type constant from the first const block of request.go. -/
def ipv4Address : Nat := 1

/-- Address type constant from the first const block of request.go. -/
def fqdnAddress : Nat := 3

/-- Address type constant from the first const block of request.go. -/
def ipv6Address : Nat := 4

/-- Reply code from the second const block of request.go.  That block
reads `successReply uint8 = 0` followed by bare identifiers with no
expressions; Go repeats the previous expression list (`uint8 = 0`) for
each of them, and no iota occurs, so every name in the block has the
value 0. -/
def successReply : Nat := 0

/-- Reply code; 0 in the source, see successReply. -/
def serverFailure : Nat := 0

/-- Reply code; 0 in the source, see successReply. -/
def ruleFailure : Nat := 0

/-- Reply code; 0 in the source, see successReply. -/
def networkUnreachable : Nat := 0

/-- Reply code; 0 in the source, see successReply. -/
def hostUnreachable : Nat := 0

/-- Reply code; 0 in the source, see successReply. -/
def connectionRefused : Nat := 0

/-- Reply code; 0 in the source, see successReply. -/
def ttlExpired : Nat := 0

/-- Reply code; 0 in the source, see successReply. -/
def commandNotSupported : Nat := 0

/-- Reply code; 0 in the source, see successReply. -/
def addrTypeNotSupported : Nat := 0

/-- The struct addrSpec of request.go: fqdn string (modelled by its
bytes), ip net.IP (none models the nil slice), port int. -/
structure addrSpec where
  fqdn : List Nat
  ip : Option (List Nat)
  port : Int
deriving DecidableEq

/-- net.IP.To4 from the Go standard library, as used by sendReply: a
4 byte ip is returned unchanged; a 16 byte ip whose first ten bytes
are zero and whose bytes 10 and 11 are 255 is shortened to its last
four bytes; everything else (including the nil ip) gives nil. -/
def ipTo4 (ip : Option (List Nat)) : Option (List Nat) :=
  match ip with
  | none => none
  | some l =>
    if l.length = 4 then some l
    else if l.length = 16 ∧ l.take 10 = List.replicate 10 0 ∧
        l.get? 10 = some 255 ∧ l.get? 11 = some 255 then
      some (l.drop 12)
    else none

/-- The 12 byte head that net.IPv4 places before the four address
bytes when building a 16 byte representation. -/
def v4InV6Head : List Nat := [0, 0, 0, 0, 0, 0, 0, 0, 0, 0, 255, 255]

/-- net.IP.To16 from the Go standard library, as used by sendReply: a
4 byte ip becomes the 16 byte form produced by net.IPv4, a 16 byte ip
is returned unchanged, everything else gives nil. -/
def ipTo16 (ip : Option (List Nat)) : Option (List Nat) :=
  match ip with
  | none => none
  | some l =>
    if l.length = 4 then some (v4InV6Head ++ l)
    else if l.length = 16 then some l
    else none

/-- Errors surfaced by readAddrSpec: a short read from the stream, or
the unrecognizedAddrType error value of request.go. -/
inductive readErr where
  | eof : readErr
  | unrecognizedAddrType : readErr
deriving DecidableEq

/-- io.ReadAtLeast into a buffer of size n: consume exactly n bytes of
the stream when available, fail otherwise. -/
def takeN (n : Nat) (l : List Nat) : Option (List Nat × List Nat) :=
  if n ≤ l.length then some (l.take n, l.drop n) else none

/-- The final port read of readAddrSpec (request.go lines 137 to 144):
read two bytes and store binary.BigEndian.Uint16 of them, converted to
int, in the port field. -/
def readPort (d : addrSpec) (l : List Nat) : Except readErr (addrSpec × List Nat) :=
  match l with
  | hi :: lo :: rest =>
    Except.ok ({ d with port := ((hi * 256 + lo : Nat) : Int) }, rest)
  | _ => Except.error readErr.eof

/-- readAddrSpec of request.go: read one address type byte, then per
type the address body (4 bytes for IPv4, 16 bytes for IPv6, one length
byte and that many bytes for FQDN), then the two port bytes.  The
switch over the type byte has cases ipv4Address, ipv6Address and
fqdnAddress, and its default returns unrecognizedAddrType. -/
def readAddrSpec (input : List Nat) : Except readErr (addrSpec × List Nat) :=
  match input with
  | [] => Except.error readErr.eof
  | t :: rest =>
    if t = ipv4Address then
      match takeN 4 rest with
      | none => Except.error readErr.eof
      | some (addr, rest2) => readPort { fqdn := [], ip := some addr, port := 0 } rest2
    else if t = ipv6Address then
      match takeN 16 rest with
      | none => Except.error readErr.eof
      | some (addr, rest2) => readPort { fqdn := [], ip := some addr, port := 0 } rest2
    else if t = fqdnAddress then
      match rest with
      | [] => Except.error readErr.eof
      | len :: rest2 =>
        match takeN len rest2 with
        | none => Except.error readErr.eof
        | some (f, rest3) => readPort { fqdn := f, ip := none, port := 0 } rest3
    else Except.error readErr.unrecognizedAddrType

/-- The address formatting switch of sendReply (request.go lines 150
to 171) for a non nil addr: a non empty fqdn gives the fqdn type with
a length byte (byte conversion truncates the length modulo 256)
followed by the fqdn bytes; otherwise a non nil To4 gives the IPv4
type with its four bytes; otherwise a non nil To16 gives the IPv6 type
with its sixteen bytes; otherwise formatting fails. -/
def formatAddress (a : addrSpec) : Option (Nat × List Nat) :=
  if a.fqdn ≠ [] then some (fqdnAddress, (a.fqdn.length % 256) :: a.fqdn)
  else
    match ipTo4 a.ip with
    | some ip4 => some (ipv4Address, ip4)
    | none =>
      match ipTo16 a.ip with
      | some ip6 => some (ipv6Address, ip6)
      | none => none

/-- The Go conversion uint16(port) on an int: the value modulo 2 to
the 16, always in the range 0 to 65535. -/
def uint16OfInt (p : Int) : Nat := (p % 65536).toNat

/-- binary.BigEndian.PutUint16: the high byte then the low byte. -/
def putUint16 (v : Nat) : List Nat := [v / 256 % 256, v % 256]

/-- Outcome of sendReply: the message bytes written on success, the
formatting error of the default switch case, or the runtime panic that
the source hits when addr is nil (uint16(addr.port) dereferences the
nil pointer before anything is written). -/
inductive sendReplyResult where
  | ok : List Nat → sendReplyResult
  | fmtErr : sendReplyResult
  | nilDeref : sendReplyResult
deriving DecidableEq

/-- sendReply of request.go (lines 148 to 185).  For addr == nil the
switch sets addrType 0 and an empty body, but the message assembly
then evaluates uint16(addr.port) on the nil pointer, a runtime panic
that happens before the write; nothing is written in that case.  For a
non nil addr the message is version, resp, reserved 0, address type,
address body, and the two big endian bytes of uint16(addr.port). -/
def sendReply (resp : Nat) (addr : Option addrSpec) : sendReplyResult :=
  match addr with
  | none => sendReplyResult.nilDeref
  | some a =>
    match formatAddress a with
    | none => sendReplyResult.fmtErr
    | some (t, body) =>
      sendReplyResult.ok ([socks5Version, resp, 0, t] ++ body ++ putUint16 (uint16OfInt a.port))

/-- The addrType, addrBody and port portion of the sendReply encoding:
the message that sendReply writes, with the three byte version, status
and reserved head removed. -/
def encodeAddrPart (a : addrSpec) : Option (List Nat) :=
  match sendReply 0 (some a) with
  | sendReplyResult.ok msg => some (msg.drop 3)
  | _ => none

/-- Decoding the sendReply encoding of an addrSpec with readAddrSpec,
keeping the decoded addrSpec. -/
def roundTrip (a : addrSpec) : Option addrSpec :=
  (encodeAddrPart a).bind fun bs => ((readAddrSpec bs).toOption).map Prod.fst

/-- Errors returned by handleRequest. -/
inductive handleErr where
  | cmdVersion : handleErr
  | unsupportedVersion : Nat → handleErr
  | readDest : readErr → handleErr
  | unsupportedCommand : Nat → handleErr
deriving DecidableEq

/-- Outcome of request handling: a nil return, an error return, or a
runtime panic escaping the handler. -/
inductive handleResult where
  | ok : handleResult
  | err : handleErr → handleResult
  | panicked : handleResult
deriving DecidableEq

/-- handleConnect of request.go (lines 80 to 83): the body is a stub
that returns nil, writing nothing to the client and reading nothing
from the stream. -/
def handleConnect (_dest : addrSpec) (_bufConn : List Nat) : List Nat × handleResult :=
  ([], handleResult.ok)

/-- handleBind of request.go (lines 85 to 88): a stub returning nil. -/
def handleBind (_dest : addrSpec) (_bufConn : List Nat) : List Nat × handleResult :=
  ([], handleResult.ok)

/-- handleAssociate of request.go (lines 90 to 93): the body is a stub
that returns nil, writing nothing to the client and reading nothing
from the control connection. -/
def handleAssociate (_dest : addrSpec) (_bufConn : List Nat) : List Nat × handleResult :=
  ([], handleResult.ok)

/-- handleRequest of request.go: read the three header bytes, check
the version byte, read the destination with readAddrSpec, then switch
on the command byte.  When readAddrSpec fails with the unrecognized
address type error the source calls sendReply with the
addrTypeNotSupported code and a nil addr, which panics on the nil
pointer dereference before writing anything; the first component of
the result is the list of bytes written to the client. -/
def handleRequest (input : List Nat) : List Nat × handleResult :=
  match input with
  | v :: cmd :: _rsv :: rest =>
    if v = socks5Version then
      match readAddrSpec rest with
      | Except.error readErr.unrecognizedAddrType => ([], handleResult.panicked)
      | Except.error e => ([], handleResult.err (handleErr.readDest e))
      | Except.ok (dest, rest2) =>
        if cmd = connectCommand then handleConnect dest rest2
        else if cmd = bindCommand then handleBind dest rest2
        else if cmd = associateCommand then handleAssociate dest rest2
        else ([], handleResult.err (handleErr.unsupportedCommand cmd))
    else ([], handleResult.err (handleErr.unsupportedVersion v))
  | _ => ([], handleResult.err handleErr.cmdVersion)

/-- Reading exactly the length of the first list from the
concatenation of two lists yields the two lists. -/
theorem takeN_exact (l r : List Nat) : takeN l.length (l ++ r) = some (l, r) := by
  unfold takeN
  rw [if_pos (by simp)]
  rw [List.take_left, List.drop_left]

/-- The unread remainder of takeN consists of bytes of the input. -/
theorem takeN_snd_mem (n : Nat) (l x r : List Nat) (h : takeN n l = some (x, r)) :
    ∀ b, b ∈ r → b ∈ l := by
  unfold takeN at h
  split at h
  · simp only [Option.some.injEq, Prod.mk.injEq] at h
    obtain ⟨-, hr⟩ := h
    subst hr
    intro b hb
    exact List.drop_subset n l hb
  · exact Option.noConfusion h

/-- A successful readPort keeps the fqdn and ip fields of its input
and stores the big endian value of two bytes of the stream as the
port. -/
theorem readPort_ok (d : addrSpec) (l : List Nat) (a : addrSpec) (rest : List Nat)
    (h : readPort d l = Except.ok (a, rest)) :
    a.fqdn = d.fqdn ∧ a.ip = d.ip ∧
    ∃ hi lo, hi ∈ l ∧ lo ∈ l ∧ a.port = ((hi * 256 + lo : Nat) : Int) := by
  rcases l with _ | ⟨hi, _ | ⟨lo, r⟩⟩
  · exact Except.noConfusion
      (show (Except.error readErr.eof : Except readErr (addrSpec × List Nat))
        = Except.ok (a, rest) from h)
  · exact Except.noConfusion
      (show (Except.error readErr.eof : Except readErr (addrSpec × List Nat))
        = Except.ok (a, rest) from h)
  · have h2 : (Except.ok ({ d with port := ((hi * 256 + lo : Nat) : Int) }, r)
        : Except readErr (addrSpec × List Nat)) = Except.ok (a, rest) := h
    simp only [Except.ok.injEq, Prod.mk.injEq] at h2
    obtain ⟨ha, -⟩ := h2
    subst ha
    exact ⟨rfl, rfl, hi, lo, by simp, by simp, rfl⟩

/-- readPort run on exactly the two bytes of putUint16 recovers the
encoded value. -/
theorem readPort_putUint16 (d : addrSpec) (v : Nat) (hv : v < 65536) :
    readPort d (putUint16 v) = Except.ok ({ d with port := ((v : Nat) : Int) }, []) := by
  have harith : v / 256 % 256 * 256 + v % 256 = v := by omega
  show (Except.ok ({ d with port := ((v / 256 % 256 * 256 + v % 256 : Nat) : Int) }, [])
      : Except readErr (addrSpec × List Nat))
      = Except.ok ({ d with port := ((v : Nat) : Int) }, [])
  rw [harith]

/-- The uint16 conversion of a Go int is below 2 to the 16. -/
theorem uint16OfInt_lt (p : Int) : uint16OfInt p < 65536 := by
  unfold uint16OfInt
  omega

/-- The uint16 conversion is the identity on the int values that are
already in the port range. -/
theorem uint16OfInt_of_range (p : Int) (h0 : 0 ≤ p) (h1 : p < 65536) :
    ((uint16OfInt p : Nat) : Int) = p := by
  unfold uint16OfInt
  omega

/-- Unfolding of readAddrSpec on a stream that holds at least the
address type byte. -/
theorem readAddrSpec_cons (t : Nat) (r : List Nat) :
    readAddrSpec (t :: r) = (if t = ipv4Address then
        match takeN 4 r with
        | none => Except.error readErr.eof
        | some (addr, rest2) => readPort { fqdn := [], ip := some addr, port := 0 } rest2
      else if t = ipv6Address then
        match takeN 16 r with
        | none => Except.error readErr.eof
        | some (addr, rest2) => readPort { fqdn := [], ip := some addr, port := 0 } rest2
      else if t = fqdnAddress then
        match r with
        | [] => Except.error readErr.eof
        | len :: rest2 =>
          match takeN len rest2 with
          | none => Except.error readErr.eof
          | some (f, rest3) => readPort { fqdn := f, ip := none, port := 0 } rest3
      else Except.error readErr.unrecognizedAddrType) := rfl

/-- A successful readAddrSpec decomposes into one of the three typed
branches of the source switch, each ending in readPort. -/
theorem readAddrSpec_shape (input : List Nat) (a : addrSpec) (rest : List Nat)
    (h : readAddrSpec input = Except.ok (a, rest)) :
    ∃ t r, input = t :: r ∧
      ((∃ x r2, takeN 4 r = some (x, r2) ∧
          readPort { fqdn := [], ip := some x, port := 0 } r2 = Except.ok (a, rest)) ∨
       (∃ x r2, takeN 16 r = some (x, r2) ∧
          readPort { fqdn := [], ip := some x, port := 0 } r2 = Except.ok (a, rest)) ∨
       (∃ len r2 f r3, r = len :: r2 ∧ takeN len r2 = some (f, r3) ∧
          readPort { fqdn := f, ip := none, port := 0 } r3 = Except.ok (a, rest))) := by
  rcases input with _ | ⟨t, r⟩
  · exact Except.noConfusion
      (show (Except.error readErr.eof : Except readErr (addrSpec × List Nat))
        = Except.ok (a, rest) from h)
  · refine ⟨t, r, rfl, ?_⟩
    rw [readAddrSpec_cons] at h
    split_ifs at h with h1 h2 h3
    · rcases htk : takeN 4 r with _ | ⟨x, r2⟩
      · rw [htk] at h
        exact Except.noConfusion
          (show (Except.error readErr.eof : Except readErr (addrSpec × List Nat))
            = Except.ok (a, rest) from h)
      · rw [htk] at h
        exact Or.inl ⟨x, r2, rfl, h⟩
    · rcases htk : takeN 16 r with _ | ⟨x, r2⟩
      · rw [htk] at h
        exact Except.noConfusion
          (show (Except.error readErr.eof : Except readErr (addrSpec × List Nat))
            = Except.ok (a, rest) from h)
      · rw [htk] at h
        exact Or.inr (Or.inl ⟨x, r2, rfl, h⟩)
    · rcases r with _ | ⟨len, r2⟩
      · exact Except.noConfusion
          (show (Except.error readErr.eof : Except readErr (addrSpec × List Nat))
            = Except.ok (a, rest) from h)
      · have h4 : (match takeN len r2 with
            | none => Except.error readErr.eof
            | some (f, rest3) => readPort { fqdn := f, ip := none, port := 0 } rest3)
            = Except.ok (a, rest) := h
        rcases htk : takeN len r2 with _ | ⟨f, r3⟩
        · rw [htk] at h4
          exact Except.noConfusion
            (show (Except.error readErr.eof : Except readErr (addrSpec × List Nat))
              = Except.ok (a, rest) from h4)
        · rw [htk] at h4
          exact Or.inr (Or.inr ⟨len, r2, f, r3, rfl, htk, h4⟩)

/-- The encoded address part of a formattable addrSpec is the type
byte, the body, and the two port bytes of the truncated port. -/
theorem encodeAddrPart_of_format (a : addrSpec) (t : Nat) (body : List Nat)
    (h : formatAddress a = some (t, body)) :
    encodeAddrPart a = some (t :: (body ++ putUint16 (uint16OfInt a.port))) := by
  have hs : sendReply 0 (some a) =
      sendReplyResult.ok ([socks5Version, 0, 0, t] ++ body ++ putUint16 (uint16OfInt a.port)) := by
    have hs2 : (match formatAddress a with
        | none => sendReplyResult.fmtErr
        | some (t, body) =>
          sendReplyResult.ok
            ([socks5Version, 0, 0, t] ++ body ++ putUint16 (uint16OfInt a.port)))
        = sendReply 0 (some a) := rfl
    rw [← hs2, h]
  unfold encodeAddrPart
  rw [hs]
  rfl

/-- Decoding the encoded address part recovers whatever readAddrSpec
yields on those bytes. -/
theorem roundTrip_eq (a dec : addrSpec) (t : Nat) (body : List Nat)
    (hfmt : formatAddress a = some (t, body))
    (hdec : readAddrSpec (t :: (body ++ putUint16 (uint16OfInt a.port)))
      = Except.ok (dec, [])) :
    roundTrip a = some dec := by
  unfold roundTrip
  rw [encodeAddrPart_of_format a t body hfmt]
  show ((readAddrSpec (t :: (body ++ putUint16 (uint16OfInt a.port)))).toOption).map Prod.fst
      = some dec
  rw [hdec]
  rfl

/-- Round trip for a non empty fqdn of wire encodable length. -/
theorem roundTrip_fqdn (f : List Nat) (p : Int) (hf : f ≠ []) (hlen : f.length < 256)
    (hp0 : 0 ≤ p) (hp1 : p < 65536) :
    roundTrip ⟨f, none, p⟩ = some ⟨f, none, p⟩ := by
  have hf2 : (⟨f, none, p⟩ : addrSpec).fqdn ≠ [] := hf
  have hfmt : formatAddress ⟨f, none, p⟩ = some (fqdnAddress, (f.length % 256) :: f) := by
    unfold formatAddress
    rw [if_pos hf2]
  have hdec : readAddrSpec
      (fqdnAddress :: (((f.length % 256) :: f) ++ putUint16 (uint16OfInt p)))
      = Except.ok (⟨f, none, p⟩, []) := by
    show (match takeN (f.length % 256) (f ++ putUint16 (uint16OfInt p)) with
        | none => Except.error readErr.eof
        | some (fq, rest3) => readPort { fqdn := fq, ip := none, port := 0 } rest3)
        = Except.ok (⟨f, none, p⟩, [])
    rw [Nat.mod_eq_of_lt hlen, takeN_exact]
    have hport := readPort_putUint16 { fqdn := f, ip := none, port := 0 }
      (uint16OfInt p) (uint16OfInt_lt p)
    rw [uint16OfInt_of_range p hp0 hp1] at hport
    exact hport
  exact roundTrip_eq _ _ _ _ hfmt hdec

/-- Round trip for a 4 byte IPv4 address. -/
theorem roundTrip_ip4 (l : List Nat) (p : Int) (hl : l.length = 4)
    (hp0 : 0 ≤ p) (hp1 : p < 65536) :
    roundTrip ⟨[], some l, p⟩ = some ⟨[], some l, p⟩ := by
  have hf2 : ¬ ((⟨[], some l, p⟩ : addrSpec).fqdn ≠ []) := fun hcon => hcon rfl
  have hto4 : ipTo4 ((⟨[], some l, p⟩ : addrSpec).ip) = some l := by
    show (if l.length = 4 then some l
        else if l.length = 16 ∧ List.take 10 l = List.replicate 10 0 ∧
            l.get? 10 = some 255 ∧ l.get? 11 = some 255 then some (List.drop 12 l)
        else none) = some l
    rw [if_pos hl]
  have hfmt : formatAddress ⟨[], some l, p⟩ = some (ipv4Address, l) := by
    unfold formatAddress
    rw [if_neg hf2, hto4]
  have hdec : readAddrSpec (ipv4Address :: (l ++ putUint16 (uint16OfInt p)))
      = Except.ok (⟨[], some l, p⟩, []) := by
    show (match takeN 4 (l ++ putUint16 (uint16OfInt p)) with
        | none => Except.error readErr.eof
        | some (addr, rest2) => readPort { fqdn := [], ip := some addr, port := 0 } rest2)
        = Except.ok (⟨[], some l, p⟩, [])
    rw [← hl, takeN_exact]
    have hport := readPort_putUint16 { fqdn := [], ip := some l, port := 0 }
      (uint16OfInt p) (uint16OfInt_lt p)
    rw [uint16OfInt_of_range p hp0 hp1] at hport
    exact hport
  exact roundTrip_eq _ _ _ _ hfmt hdec

/-- Round trip for a 16 byte IPv6 address that is not in the IPv4 in
IPv6 range. -/
theorem roundTrip_ip6 (l : List Nat) (p : Int) (hl : l.length = 16)
    (h4 : ipTo4 (some l) = none) (hp0 : 0 ≤ p) (hp1 : p < 65536) :
    roundTrip ⟨[], some l, p⟩ = some ⟨[], some l, p⟩ := by
  have hf2 : ¬ ((⟨[], some l, p⟩ : addrSpec).fqdn ≠ []) := fun hcon => hcon rfl
  have hne4 : ¬ l.length = 4 := by rw [hl]; decide
  have hto16 : ipTo16 ((⟨[], some l, p⟩ : addrSpec).ip) = some l := by
    show (if l.length = 4 then some (v4InV6Head ++ l)
        else if l.length = 16 then some l else none) = some l
    rw [if_neg hne4, if_pos hl]
  have h42 : ipTo4 ((⟨[], some l, p⟩ : addrSpec).ip) = none := h4
  have hfmt : formatAddress ⟨[], some l, p⟩ = some (ipv6Address, l) := by
    unfold formatAddress
    rw [if_neg hf2, h42, hto16]
  have hdec : readAddrSpec (ipv6Address :: (l ++ putUint16 (uint16OfInt p)))
      = Except.ok (⟨[], some l, p⟩, []) := by
    show (match takeN 16 (l ++ putUint16 (uint16OfInt p)) with
        | none => Except.error readErr.eof
        | some (addr, rest2) => readPort { fqdn := [], ip := some addr, port := 0 } rest2)
        = Except.ok (⟨[], some l, p⟩, [])
    rw [← hl, takeN_exact]
    have hport := readPort_putUint16 { fqdn := [], ip := some l, port := 0 }
      (uint16OfInt p) (uint16OfInt_lt p)
    rw [uint16OfInt_of_range p hp0 hp1] at hport
    exact hport
  exact roundTrip_eq _ _ _ _ hfmt hdec

/-- With an empty fqdn the formatting switch of sendReply can only
pick the IPv4 or the IPv6 type. -/
theorem formatAddress_type_of_empty_fqdn (a : addrSpec) (t : Nat) (body : List Nat)
    (hf : a.fqdn = []) (h : formatAddress a = some (t, body)) :
    t = ipv4Address ∨ t = ipv6Address := by
  unfold formatAddress at h
  rw [hf] at h
  rw [if_neg (fun hcon => hcon rfl)] at h
  rcases h4 : ipTo4 a.ip with _ | x
  · rw [h4] at h
    rcases h6 : ipTo16 a.ip with _ | x
    · rw [h6] at h
      exact Option.noConfusion h
    · rw [h6] at h
      have h2 : (some (ipv6Address, x) : Option (Nat × List Nat)) = some (t, body) := h
      simp only [Option.some.injEq, Prod.mk.injEq] at h2
      exact Or.inr h2.1.symm
  · rw [h4] at h
    have h2 : (some (ipv4Address, x) : Option (Nat × List Nat)) = some (t, body) := h
    simp only [Option.some.injEq, Prod.mk.injEq] at h2
    exact Or.inl h2.1.symm

/-- C1: the claim says handleConnect dials the destination, writes a
success reply carrying the bound address on success or a mapped
failure reply on dial failure, and relays bytes.  In the source
handleConnect is a stub: for every destination and stream it writes
nothing and returns nil, and a full CONNECT request through
handleRequest likewise produces no output at all. -/
theorem c1_handleConnect_stub :
    (∀ dest bufConn, handleConnect dest bufConn = ([], handleResult.ok)) ∧
    handleRequest [5, 1, 0, 1, 127, 0, 0, 1, 0, 80] = ([], handleResult.ok) :=
  ⟨fun _ _ => rfl, rfl⟩

/-- C2: the claim says handleAssociate does not return while the
control connection remains open and couples the relay lifetime to the
control connection.  In the source handleAssociate is a stub: for
every destination and control stream it reads nothing, writes nothing
and returns nil immediately, and a full ASSOCIATE request through
handleRequest likewise produces no output at all. -/
theorem c2_handleAssociate_stub :
    (∀ dest bufConn, handleAssociate dest bufConn = ([], handleResult.ok)) ∧
    handleRequest [5, 3, 0, 1, 127, 0, 0, 1, 4, 210] = ([], handleResult.ok) :=
  ⟨fun _ _ => rfl, rfl⟩

/-- C3: the claim says sendReply with the ruleFailure status and no
addrSpec writes the bytes 5, 2, 0, 1, 0, 0, 0, 0, 0, 0.  In the source
ruleFailure has the value 0, not 2 (the const block lacks iota), and
sendReply with a nil addr hits the nil pointer dereference on
addr.port before writing anything. -/
theorem c3_ruleFailure_reply_bug :
    ruleFailure = 0 ∧ ruleFailure ≠ 2 ∧
    sendReply ruleFailure none = sendReplyResult.nilDeref :=
  ⟨rfl, by decide, rfl⟩

/-- C4: the claim says sendReply with a nil addrSpec completes for
every status, encoding address type 0, an empty body and port 0,
without reading any field of the absent addrSpec.  In the source the
message assembly evaluates uint16(addr.port) on the nil pointer, a
runtime panic, so sendReply never completes on a nil addr. -/
theorem c4_sendReply_nil_bug :
    ∀ resp : Nat, sendReply resp none = sendReplyResult.nilDeref :=
  fun _ => rfl

/-- C5: the claim says an unknown address type byte makes readAddrSpec
fail with the unrecognized address type error and handleRequest then
write a reply with status byte 8.  The first half holds, but in the
source addrTypeNotSupported is 0, not 8 (the const block lacks iota),
and the reply attempt calls sendReply with a nil addr, which panics on
the nil pointer dereference, so nothing is ever written. -/
theorem c5_addrTypeNotSupported_reply_bug :
    readAddrSpec [2] = Except.error readErr.unrecognizedAddrType ∧
    addrTypeNotSupported = 0 ∧
    handleRequest [5, 1, 0, 2] = ([], handleResult.panicked) :=
  ⟨rfl, rfl, rfl⟩

/-- C6 counterexample: the round trip fails for a non empty FQDN of
256 bytes: the length byte truncates to 0, so decoding the encoding
yields an addrSpec with an empty fqdn and a port made from the first
two fqdn bytes, different from the original. -/
theorem c6_roundtrip_counterexample :
    List.replicate 256 97 ≠ ([] : List Nat) ∧
    roundTrip ⟨List.replicate 256 97, none, 80⟩ = some ⟨[], none, 24929⟩ ∧
    (⟨[], none, 24929⟩ : addrSpec) ≠ ⟨List.replicate 256 97, none, 80⟩ :=
  ⟨by decide, rfl, by decide⟩

/-- C7 counterexample: sendReply given an addrSpec with a non empty
fqdn emits the address type byte 3 at message index 3, so the emitted
address type byte is not never 3. -/
theorem c7_fqdn_emitted_counterexample :
    sendReply successReply (some ⟨[97], none, 80⟩) =
      sendReplyResult.ok [5, 0, 0, 3, 1, 97, 0, 80] ∧
    ([5, 0, 0, 3, 1, 97, 0, 80] : List Nat).get? 3 = some fqdnAddress :=
  ⟨rfl, rfl⟩

/-- C8 counterexample: for the unsupported command byte 9 handleRequest
returns the unsupported command error with an empty output: no
commandNotSupported reply is written to the client. -/
theorem c8_no_reply_counterexample :
    handleRequest [5, 9, 0, 1, 127, 0, 0, 1, 0, 80] =
      ([], handleResult.err (handleErr.unsupportedCommand 9)) :=
  rfl

/-- C9 counterexample: a SOCKS5 FQDN address with declared length byte
0 decodes successfully to an addrSpec with an empty fqdn and a nil ip,
so neither field is populated. -/
theorem c9_empty_fqdn_counterexample :
    readAddrSpec [3, 0, 0, 80] = Except.ok (⟨[], none, 80⟩, []) ∧
    (⟨[], none, 80⟩ : addrSpec).fqdn = [] ∧
    (⟨[], none, 80⟩ : addrSpec).ip = none :=
  ⟨rfl, rfl, rfl⟩

/-- C6 amended: for every addrSpec with a port in the 16 bit range
that holds exactly one address form, namely a non empty FQDN of at
most 255 bytes, a 4 byte IPv4 address, or a 16 byte IPv6 address
outside the IPv4 in IPv6 range, decoding the address type, address
body and port portion of the sendReply encoding with readAddrSpec
returns the original addrSpec. -/
theorem c6_roundtrip_amended (a : addrSpec) (hp0 : 0 ≤ a.port) (hp1 : a.port < 65536)
    (hform :
      (a.fqdn ≠ [] ∧ a.fqdn.length < 256 ∧ a.ip = none) ∨
      (a.fqdn = [] ∧ ∃ l, a.ip = some l ∧ l.length = 4) ∨
      (a.fqdn = [] ∧ ∃ l, a.ip = some l ∧ l.length = 16 ∧ ipTo4 a.ip = none)) :
    roundTrip a = some a := by
  obtain ⟨f, ip, p⟩ := a
  rcases hform with ⟨hf, hlen, hip⟩ | ⟨hf, l, hip, hl⟩ | ⟨hf, l, hip, hl, h4⟩
  · have hip2 : ip = none := hip
    subst hip2
    exact roundTrip_fqdn f p hf hlen hp0 hp1
  · have hf2 : f = [] := hf
    have hip2 : ip = some l := hip
    subst hf2
    subst hip2
    exact roundTrip_ip4 l p hl hp0 hp1
  · have hf2 : f = [] := hf
    have hip2 : ip = some l := hip
    subst hf2
    subst hip2
    exact roundTrip_ip6 l p hl h4 hp0 hp1

/-- C6 witness: the round trip at an IPv4 addrSpec. -/
theorem c6_roundtrip_witness :
    roundTrip ⟨[], some [127, 0, 0, 1], 80⟩ = some ⟨[], some [127, 0, 0, 1], 80⟩ :=
  c6_roundtrip_amended ⟨[], some [127, 0, 0, 1], 80⟩ (by decide) (by decide)
    (Or.inr (Or.inl ⟨rfl, [127, 0, 0, 1], rfl, rfl⟩))

/-- C7 amended: sendReply emits the address type byte 3 exactly for
addrSpecs with a non empty fqdn; for every addrSpec whose fqdn is
empty, which is the only form the reply call sites of the spec pass,
the emitted address type byte at message index 3 is never 3. -/
theorem c7_reply_type_amended (resp : Nat) (a : addrSpec) (msg : List Nat)
    (hf : a.fqdn = []) (hok : sendReply resp (some a) = sendReplyResult.ok msg) :
    msg.get? 3 ≠ some fqdnAddress := by
  have hok2 : (match formatAddress a with
      | none => sendReplyResult.fmtErr
      | some (t, body) =>
        sendReplyResult.ok
          ([socks5Version, resp, 0, t] ++ body ++ putUint16 (uint16OfInt a.port)))
      = sendReplyResult.ok msg := hok
  rcases hfmt : formatAddress a with _ | ⟨t, body⟩
  · rw [hfmt] at hok2
    exact sendReplyResult.noConfusion
      (show sendReplyResult.fmtErr = sendReplyResult.ok msg from hok2)
  · rw [hfmt] at hok2
    have hok3 : sendReplyResult.ok
        ([socks5Version, resp, 0, t] ++ body ++ putUint16 (uint16OfInt a.port))
        = sendReplyResult.ok msg := hok2
    simp only [sendReplyResult.ok.injEq] at hok3
    subst hok3
    have hidx : ([socks5Version, resp, 0, t] ++ body ++ putUint16 (uint16OfInt a.port)).get? 3
        = some t := rfl
    rw [hidx]
    rcases formatAddress_type_of_empty_fqdn a t body hf hfmt with ht | ht <;> subst ht <;> decide

/-- C7 witness: an IPv4 reply carries the address type byte 1 at
index 3, not 3. -/
theorem c7_reply_type_witness :
    ([5, 0, 0, 1, 1, 2, 3, 4, 0, 5] : List Nat).get? 3 ≠ some fqdnAddress :=
  c7_reply_type_amended 0 ⟨[], some [1, 2, 3, 4], 5⟩ [5, 0, 0, 1, 1, 2, 3, 4, 0, 5] rfl rfl

/-- C8 amended: for every command byte other than 1, 2 and 3
handleRequest returns the unsupported command error and writes
nothing at all to the client: no commandNotSupported reply is sent
before the connection is closed. -/
theorem c8_unsupported_command_amended (cmd rsv : Nat) (rest rest2 : List Nat)
    (dest : addrSpec) (hread : readAddrSpec rest = Except.ok (dest, rest2))
    (h1 : cmd ≠ connectCommand) (h2 : cmd ≠ bindCommand) (h3 : cmd ≠ associateCommand) :
    handleRequest (socks5Version :: cmd :: rsv :: rest) =
      ([], handleResult.err (handleErr.unsupportedCommand cmd)) := by
  have hstep : (match readAddrSpec rest with
      | Except.error readErr.unrecognizedAddrType => ([], handleResult.panicked)
      | Except.error e => ([], handleResult.err (handleErr.readDest e))
      | Except.ok (dest, rest2) =>
        if cmd = connectCommand then handleConnect dest rest2
        else if cmd = bindCommand then handleBind dest rest2
        else if cmd = associateCommand then handleAssociate dest rest2
        else ([], handleResult.err (handleErr.unsupportedCommand cmd)))
      = handleRequest (socks5Version :: cmd :: rsv :: rest) := rfl
  rw [← hstep, hread]
  show (if cmd = connectCommand then handleConnect dest rest2
      else if cmd = bindCommand then handleBind dest rest2
      else if cmd = associateCommand then handleAssociate dest rest2
      else ([], handleResult.err (handleErr.unsupportedCommand cmd)))
      = ([], handleResult.err (handleErr.unsupportedCommand cmd))
  rw [if_neg h1, if_neg h2, if_neg h3]

/-- C8 witness: command byte 0 with an IPv6 destination yields the
unsupported command error and no written bytes. -/
theorem c8_unsupported_command_witness :
    handleRequest (socks5Version :: 0 :: 0 :: (4 :: (List.replicate 16 0 ++ [0, 53]))) =
      ([], handleResult.err (handleErr.unsupportedCommand 0)) :=
  c8_unsupported_command_amended 0 0 (4 :: (List.replicate 16 0 ++ [0, 53])) []
    ⟨[], some (List.replicate 16 0), 53⟩ rfl (by decide) (by decide) (by decide)

/-- C9 amended: every addrSpec that readAddrSpec returns successfully
has at most one of fqdn and ip populated: the IPv4 and IPv6 branches
leave the fqdn empty and the FQDN branch leaves the ip nil; both can
be empty when the declared FQDN length byte is 0, so at most one,
rather than exactly one, is the invariant the code maintains. -/
theorem c9_at_most_one_field (input : List Nat) (a : addrSpec) (rest : List Nat)
    (h : readAddrSpec input = Except.ok (a, rest)) :
    a.fqdn = [] ∨ a.ip = none := by
  obtain ⟨t, r, -, hc⟩ := readAddrSpec_shape input a rest h
  rcases hc with ⟨x, r2, -, hp⟩ | ⟨x, r2, -, hp⟩ | ⟨len, r2, f, r3, -, -, hp⟩
  · exact Or.inl (readPort_ok _ _ _ _ hp).1
  · exact Or.inl (readPort_ok _ _ _ _ hp).1
  · exact Or.inr (readPort_ok _ _ _ _ hp).2.1

/-- C9 witness: a decoded IPv4 destination has an empty fqdn. -/
theorem c9_at_most_one_field_witness :
    (⟨[], some [1, 2, 3, 4], 80⟩ : addrSpec).fqdn = [] ∨
      (⟨[], some [1, 2, 3, 4], 80⟩ : addrSpec).ip = none :=
  c9_at_most_one_field [1, 1, 2, 3, 4, 0, 80] ⟨[], some [1, 2, 3, 4], 80⟩ [] rfl

/-- C10: readAddrSpec only ever returns ports in the range 0 to 65535
when fed bytes, and sendReply never fails on an out of range port: it
encodes the port modulo 2 to the 16 in big endian after the address
body, for every addrSpec the formatting switch accepts. -/
theorem c10_port_range_and_truncation :
    (∀ input a rest, (∀ b ∈ input, b < 256) →
        readAddrSpec input = Except.ok (a, rest) → 0 ≤ a.port ∧ a.port ≤ 65535) ∧
    (∀ resp a t body, formatAddress a = some (t, body) →
        sendReply resp (some a) =
          sendReplyResult.ok ([socks5Version, resp, 0, t] ++ body ++
            putUint16 ((a.port % 65536).toNat))) := by
  constructor
  · intro input a rest hb h
    obtain ⟨t, r, hin, hc⟩ := readAddrSpec_shape input a rest h
    subst hin
    have hbr : ∀ b ∈ r, b < 256 := fun b hbm => hb b (List.mem_cons_of_mem _ hbm)
    rcases hc with ⟨x, r2, htk, hp⟩ | ⟨x, r2, htk, hp⟩ | ⟨len, r2, f, r3, hr, htk, hp⟩
    · obtain ⟨-, -, hi, lo, hhi, hlo, hport⟩ := readPort_ok _ _ _ _ hp
      have hi2 : hi < 256 := hbr hi (takeN_snd_mem _ _ _ _ htk hi hhi)
      have lo2 : lo < 256 := hbr lo (takeN_snd_mem _ _ _ _ htk lo hlo)
      rw [hport]
      omega
    · obtain ⟨-, -, hi, lo, hhi, hlo, hport⟩ := readPort_ok _ _ _ _ hp
      have hi2 : hi < 256 := hbr hi (takeN_snd_mem _ _ _ _ htk hi hhi)
      have lo2 : lo < 256 := hbr lo (takeN_snd_mem _ _ _ _ htk lo hlo)
      rw [hport]
      omega
    · obtain ⟨-, -, hi, lo, hhi, hlo, hport⟩ := readPort_ok _ _ _ _ hp
      subst hr
      have hbr2 : ∀ b ∈ r2, b < 256 := fun b hbm => hbr b (List.mem_cons_of_mem _ hbm)
      have hi2 : hi < 256 := hbr2 hi (takeN_snd_mem _ _ _ _ htk hi hhi)
      have lo2 : lo < 256 := hbr2 lo (takeN_snd_mem _ _ _ _ htk lo hlo)
      rw [hport]
      omega
  · intro resp a t body hfmt
    have hstep : (match formatAddress a with
        | none => sendReplyResult.fmtErr
        | some (t, body) =>
          sendReplyResult.ok
            ([socks5Version, resp, 0, t] ++ body ++ putUint16 (uint16OfInt a.port)))
        = sendReply resp (some a) := rfl
    rw [← hstep, hfmt]
    rfl

/-- C10 witness: decoding bytes 255 255 yields the maximal port 65535,
and sendReply encodes the out of range port 65541 as 5 without
failing. -/
theorem c10_port_witness :
    (0 ≤ (⟨[], some [1, 2, 3, 4], 65535⟩ : addrSpec).port ∧
      (⟨[], some [1, 2, 3, 4], 65535⟩ : addrSpec).port ≤ 65535) ∧
    sendReply 0 (some ⟨[], some [1, 2, 3, 4], 65541⟩) =
      sendReplyResult.ok [5, 0, 0, 1, 1, 2, 3, 4, 0, 5] := by
  constructor
  · exact c10_port_range_and_truncation.1 [1, 1, 2, 3, 4, 255, 255]
      ⟨[], some [1, 2, 3, 4], 65535⟩ [] (by decide) rfl
  · have h := c10_port_range_and_truncation.2 0 ⟨[], some [1, 2, 3, 4], 65541⟩ 1 [1, 2, 3, 4] rfl
    rw [h]
    rfl

end GoSocks
